import Mathlib

/-!
Verification of the sensor-event-to-evidence-to-report pipeline of the
smart-security desktop application (src/smart.py).  The embedding models the
fields of SmartSecurityApp that the pipeline reads and writes, with time as a
natural-number timestamp and the network as an explicit oracle value per call.
-/

namespace SmartSecurity

/-- Configuration constants set in SmartSecurityApp constructor
(src/smart.py lines 34-43).  The sound threshold 0.03 is the rational 3/100,
written in normal form so that comparisons evaluate by kernel reduction. -/
def SOUND_THRESHOLD : ℚ := Rat.mk' 3 100 (by decide) (by decide)

def MOTION_THRESHOLD : Nat := 10000

def EVENT_COOLDOWN : Nat := 10

def RECORDING_DURATION : Nat := 10

def MAX_IMAGES : Nat := 3

def MAX_AUDIO : Nat := 3

def EVIDENCE_INTERVAL : Nat := 5

/-- Outcome of one HTTP post: either the connection raised
(requests.exceptions.RequestException), or the server answered with a status
code and a JSON body whose only field of interest is an optional id. -/
inductive NetResult where
  | connError : NetResult
  | response : Nat → Option Nat → NetResult
deriving DecidableEq

/-- A local incident record as appended to self.incidents: the type string,
the description string and the timestamp. -/
structure Incident where
  type : String
  desc : String
  time : Nat
deriving DecidableEq

/-- Kind tag of an evidence item forwarded to the API. -/
inductive EvKind where
  | image : EvKind
  | audio : EvKind
deriving DecidableEq

/-- A file persisted under the local evidence directory: a JPEG frame, or a
WAV file holding the concatenation of the recorded audio buffers. -/
inductive LocalFile where
  | image : LocalFile
  | audioFile : List Nat → LocalFile
deriving DecidableEq

/-- One evidence post handed to requests.post: its kind and the network
outcome it met. -/
structure RemoteSend where
  kind : EvKind
  outcome : NetResult
deriving DecidableEq

/-- The shared mutable fields of SmartSecurityApp that the pipeline touches,
plus two observation logs: the local evidence files written and the evidence
posts issued. -/
structure EvState where
  last_event_time : Nat
  motion_detected : Bool
  sound_detected : Bool
  incidents : List Incident
  is_recording : Bool
  frames : List (List Nat)
  recording_start_time : Nat
  incident_id : Option Nat
  sent_images : Nat
  sent_audio : Nat
  last_api_send_time : Nat
  localFiles : List LocalFile
  remoteSends : List RemoteSend
deriving DecidableEq

/-- The state right after the constructor runs (lines 44-57): counters zero,
no incident open, not recording; self.incidents holds whatever
load_incidents read from disk. -/
def initState (loaded : List Incident) : EvState :=
  { last_event_time := 0
    motion_detected := false
    sound_detected := false
    incidents := loaded
    is_recording := false
    frames := []
    recording_start_time := 0
    incident_id := none
    sent_images := 0
    sent_audio := 0
    last_api_send_time := 0
    localFiles := []
    remoteSends := [] }

/-- Python truthiness of self.incident_id: None and 0 are falsy. -/
def truthyId : Option Nat → Bool
  | none => false
  | some i => decide (i ≠ 0)

/-- send_to_api (lines 362-380): on a connection error it logs and returns
None; on a response it returns the parsed JSON body exactly when the status
code equals 201, otherwise it logs the error and returns None.  The body is
modelled by its optional id field. -/
def send_to_api : NetResult → Option (Option Nat)
  | NetResult.connError => none
  | NetResult.response status bodyId =>
      if status = 201 then some bodyId else none

/-- The status test of upload_evidence_files (line 565):
response.status_code in [200, 201]. -/
def uploadStatusOk (status : Nat) : Bool :=
  status == 200 || status == 201

/-- A 2xx status, as the specification words success. -/
def is2xx (status : Nat) : Bool :=
  decide (200 ≤ status) && decide (status < 300)

/-- upload_evidence_files (lines 540-570).  Every loop iteration builds the
request URL from self.api_base, an attribute that no method ever assigns
(the constructor sets API_BASE_URL instead), so evaluating it raises
AttributeError inside the per-item try block; the exception is caught and
printed and no request is issued, leaving the modelled state unchanged. -/
def upload_evidence_files (s : EvState) (_incidentId : Option Nat) : EvState :=
  s

/-- cooldown_expired (lines 452-453):
time.time() - self.last_event_time > self.EVENT_COOLDOWN. -/
def cooldown_expired (s : EvState) (now : Nat) : Bool :=
  decide (EVENT_COOLDOWN < now - s.last_event_time)

/-- start_recording (lines 315-321): only when not already recording, set
is_recording, stamp the start time and clear the frame buffer. -/
def start_recording (s : EvState) (now : Nat) : EvState :=
  if s.is_recording then s
  else { s with is_recording := true, recording_start_time := now, frames := [] }

/-- capture_evidence (lines 420-450).  hasFrame models
self.current_frame is not None, saveOk the success of cv2.imwrite, openOk the
success of opening the written file for upload, net the network outcome of
the evidence post.  The counter increment and the last_api_send_time update
run after send_to_api returns, whatever it returned. -/
def capture_evidence (s : EvState) (hasFrame : Bool) (now : Nat)
    (saveOk : Bool) (openOk : Bool) (net : NetResult) : EvState :=
  if hasFrame then
    if saveOk then
      let s1 := { s with localFiles := s.localFiles ++ [LocalFile.image] }
      if truthyId s1.incident_id = true ∧ s1.sent_images < MAX_IMAGES ∧
          EVIDENCE_INTERVAL ≤ now - s1.last_api_send_time then
        if openOk then
          { s1 with
            remoteSends := s1.remoteSends ++ [⟨EvKind.image, net⟩]
            sent_images := s1.sent_images + 1
            last_api_send_time := now }
        else s1
      else s1
    else s
  else s

/-- save_audio_evidence (lines 383-418).  Writes the joined frame buffers to
one WAV file; the in-memory buffer self.frames is not cleared here.  As in
capture_evidence, the counter increment and the last_api_send_time update are
unconditional once the guarded block is entered and the file opens. -/
def save_audio_evidence (s : EvState) (now : Nat) (saveOk : Bool)
    (openOk : Bool) (net : NetResult) : EvState :=
  if saveOk then
    let s1 := { s with localFiles := s.localFiles ++ [LocalFile.audioFile s.frames.flatten] }
    if truthyId s1.incident_id = true ∧ s1.sent_audio < MAX_AUDIO ∧
        EVIDENCE_INTERVAL ≤ now - s1.last_api_send_time then
      if openOk then
        { s1 with
          remoteSends := s1.remoteSends ++ [⟨EvKind.audio, net⟩]
          sent_audio := s1.sent_audio + 1
          last_api_send_time := now }
      else s1
    else s1
  else s

/-- auto_report (lines 455-492): post the incident payload; on success store
the returned id and call upload_evidence_files, on failure clear the id; then
append the local record, save it, and reset the upload budget with
last_api_send_time = now. -/
def auto_report (s : EvState) (eventType desc : String) (now : Nat)
    (net : NetResult) : EvState :=
  let s1 :=
    match send_to_api net with
    | some bodyId => upload_evidence_files { s with incident_id := bodyId } bodyId
    | none => { s with incident_id := none }
  { s1 with
    incidents := s1.incidents ++ [⟨eventType, desc, now⟩]
    sent_images := 0
    sent_audio := 0
    last_api_send_time := now }

/-- Whitespace stripping from both ends, as Python str.strip applies to the
description read from the text widget. -/
def stripChars (cs : List Char) : List Char :=
  ((cs.dropWhile Char.isWhitespace).reverse.dropWhile Char.isWhitespace).reverse

/-- String form of stripChars. -/
def pyStrip (s : String) : String :=
  ⟨stripChars s.data⟩

/-- submit_report (lines 494-538).  The Bool result is true exactly when the
success message box was shown; empty fields are rejected before any state
mutation.  The description is stripped as in the source. -/
def submit_report (s : EvState) (incidentType rawDesc : String) (now : Nat)
    (net : NetResult) : EvState × Bool :=
  let description := pyStrip rawDesc
  if incidentType == "" || description == "" then (s, false)
  else
    let newId : Option Nat :=
      match send_to_api net with
      | some bodyId => bodyId
      | none => none
    let s1 := { s with incident_id := newId }
    ({ s1 with
        incidents := s1.incidents ++ [⟨incidentType, description, now⟩]
        sent_images := 0
        sent_audio := 0
        last_api_send_time := now }, true)

/-- The per-callback environment of audio_callback: the current time, the RMS
of the delivered buffer, and the outcomes of the I/O the callback may
perform. -/
structure CallbackEnv where
  now : Nat
  rms : ℚ
  incidentNet : NetResult
  audioSaveOk : Bool
  audioOpenOk : Bool
  audioNet : NetResult
deriving DecidableEq

/-- audio_callback (lines 292-313): evaluate the sound threshold, set the
flag; on a loud buffer with expired cooldown run auto_report, stamp
last_event_time and start_recording; then, when recording, append the buffer
and on duration expiry flush via save_audio_evidence and leave the recording
state. -/
def audio_callback (s : EvState) (e : CallbackEnv) (buf : List Nat) : EvState :=
  let s1 := { s with sound_detected := decide (SOUND_THRESHOLD < e.rms) }
  let s2 :=
    if SOUND_THRESHOLD < e.rms ∧ cooldown_expired s1 e.now = true then
      start_recording
        { (auto_report s1 ("Loud Noise") ("Sound level exceeded threshold") e.now e.incidentNet) with
          last_event_time := e.now } e.now
    else s1
  if s2.is_recording then
    let s3 := { s2 with frames := s2.frames ++ [buf] }
    if RECORDING_DURATION ≤ e.now - s3.recording_start_time then
      let s4 := save_audio_evidence s3 e.now e.audioSaveOk e.audioOpenOk e.audioNet
      { s4 with is_recording := false }
    else s3
  else s2

/-- One iteration of the motion_detection loop body (lines 254-266): read a
frame, compute the thresholded absolute difference sum, and set the motion
flag.  Nothing else is read or written. -/
def motion_iteration (s : EvState) (diffSum : Nat) : EvState :=
  { s with motion_detected := decide (MOTION_THRESHOLD < diffSum) }

/-- A step of the system: any single invocation of one of the pipeline
operations, with arbitrary environment inputs. -/
inductive Step : EvState → EvState → Prop where
  | motion (s : EvState) (d : Nat) : Step s (motion_iteration s d)
  | audio (s : EvState) (e : CallbackEnv) (buf : List Nat) :
      Step s (audio_callback s e buf)
  | capture (s : EvState) (hasFrame : Bool) (now : Nat) (saveOk openOk : Bool)
      (net : NetResult) : Step s (capture_evidence s hasFrame now saveOk openOk net)
  | flush (s : EvState) (now : Nat) (saveOk openOk : Bool) (net : NetResult) :
      Step s (save_audio_evidence s now saveOk openOk net)
  | startRec (s : EvState) (now : Nat) : Step s (start_recording s now)
  | autoRep (s : EvState) (ty d : String) (now : Nat) (net : NetResult) :
      Step s (auto_report s ty d now net)
  | submitRep (s : EvState) (ty d : String) (now : Nat) (net : NetResult) :
      Step s (submit_report s ty d now net).1

/-- A state is reachable when some sequence of steps leads to it from the
freshly constructed application, whatever incident list was loaded from
disk. -/
def Reachable (s : EvState) : Prop :=
  ∃ loaded, Relation.ReflTransGen Step (initState loaded) s

/-- A state with an incident open, fresh counters and an old send stamp. -/
def openEv : EvState :=
  { initState [] with incident_id := some 1 }

/-- A state with an incident open and both per-kind budgets exhausted. -/
def cappedEv : EvState :=
  { initState [] with incident_id := some 1, sent_images := 3, sent_audio := 3 }

/-- The state created by a successful automatic report at time 0: incident 1
open, counters reset, send stamp 0. -/
def openIncidentState : EvState :=
  auto_report (initState []) ("Suspicious Activity") ("movement") 0
    (NetResult.response 201 (some 1))

/-- Six image captures for the open incident at times 5, 10, ..., 30, each
with a working camera, disk and network; every attempt is cap- and
interval-qualifying until the cap bites. -/
def sixCaptures : EvState :=
  List.foldl
    (fun st t => capture_evidence st true t true true (NetResult.response 201 none))
    openIncidentState [5, 10, 15, 20, 25, 30]

/-- A state in the middle of a recording episode started at time 0 with one
buffered audio chunk. -/
def recState : EvState :=
  { initState [] with
      is_recording := true
      recording_start_time := 0
      frames := [[1]] }

/-- A quiet audio buffer arriving at time 10 with all I/O working. -/
def quietEnv10 : CallbackEnv :=
  ⟨10, 0, NetResult.connError, true, true, NetResult.connError⟩

/-- A loud audio buffer arriving at time 11 with a healthy incident post. -/
def loudEnv11 : CallbackEnv :=
  ⟨11, 1, NetResult.response 201 (some 5), true, true, NetResult.connError⟩

/-- The sound threshold of the model is the rational 0.03 of the source. -/
theorem SOUND_THRESHOLD_eq : SOUND_THRESHOLD = 3 / 100 := by
  rw [SOUND_THRESHOLD, Rat.mk'_eq_divInt, Rat.divInt_eq_div]
  norm_num

/-- An evidence-image capture never touches the audio counter. -/
theorem capture_sent_audio (s : EvState) (hf : Bool) (now : Nat)
    (so oo : Bool) (net : NetResult) :
    (capture_evidence s hf now so oo net).sent_audio = s.sent_audio := by
  simp only [capture_evidence]
  split_ifs <;> rfl

/-- An evidence-image capture keeps the image counter within the cap. -/
theorem capture_sent_images_le (s : EvState) (hf : Bool) (now : Nat)
    (so oo : Bool) (net : NetResult) (h : s.sent_images ≤ MAX_IMAGES) :
    (capture_evidence s hf now so oo net).sent_images ≤ MAX_IMAGES := by
  simp only [capture_evidence]
  split_ifs with h1 h2 h3 h4 <;> simp_all <;> omega

/-- With the image budget exhausted, capture_evidence issues no post. -/
theorem capture_capped (s : EvState) (hf : Bool) (now : Nat)
    (so oo : Bool) (net : NetResult) (h : MAX_IMAGES ≤ s.sent_images) :
    (capture_evidence s hf now so oo net).remoteSends = s.remoteSends := by
  simp only [capture_evidence]
  split_ifs with h1 h2 h3 h4 <;> simp_all <;> omega

/-- With no open incident, capture_evidence issues no post. -/
theorem capture_no_incident (s : EvState) (hf : Bool) (now : Nat)
    (so oo : Bool) (net : NetResult) (h : s.incident_id = none) :
    (capture_evidence s hf now so oo net).remoteSends = s.remoteSends := by
  simp only [capture_evidence]
  split_ifs with h1 h2 h3 h4 <;> simp_all [truthyId]

/-- Within the minimum send interval, capture_evidence issues no post. -/
theorem capture_in_interval (s : EvState) (hf : Bool) (now : Nat)
    (so oo : Bool) (net : NetResult)
    (h : now - s.last_api_send_time < EVIDENCE_INTERVAL) :
    (capture_evidence s hf now so oo net).remoteSends = s.remoteSends := by
  simp only [capture_evidence]
  split_ifs with h1 h2 h3 h4 <;> simp_all <;> omega

/-- An audio flush never touches the image counter. -/
theorem save_audio_sent_images (s : EvState) (now : Nat)
    (so oo : Bool) (net : NetResult) :
    (save_audio_evidence s now so oo net).sent_images = s.sent_images := by
  simp only [save_audio_evidence]
  split_ifs <;> rfl

/-- An audio flush keeps the audio counter within the cap. -/
theorem save_audio_sent_audio_le (s : EvState) (now : Nat)
    (so oo : Bool) (net : NetResult) (h : s.sent_audio ≤ MAX_AUDIO) :
    (save_audio_evidence s now so oo net).sent_audio ≤ MAX_AUDIO := by
  simp only [save_audio_evidence]
  split_ifs with h1 h2 h3 <;> simp_all <;> omega

/-- With the audio budget exhausted, save_audio_evidence issues no post. -/
theorem save_audio_capped (s : EvState) (now : Nat)
    (so oo : Bool) (net : NetResult) (h : MAX_AUDIO ≤ s.sent_audio) :
    (save_audio_evidence s now so oo net).remoteSends = s.remoteSends := by
  simp only [save_audio_evidence]
  split_ifs with h1 h2 h3 <;> simp_all <;> omega

/-- With no open incident, save_audio_evidence issues no post. -/
theorem save_audio_no_incident (s : EvState) (now : Nat)
    (so oo : Bool) (net : NetResult) (h : s.incident_id = none) :
    (save_audio_evidence s now so oo net).remoteSends = s.remoteSends := by
  simp only [save_audio_evidence]
  split_ifs with h1 h2 h3 <;> simp_all [truthyId]

/-- Within the minimum send interval, save_audio_evidence issues no post. -/
theorem save_audio_in_interval (s : EvState) (now : Nat)
    (so oo : Bool) (net : NetResult)
    (h : now - s.last_api_send_time < EVIDENCE_INTERVAL) :
    (save_audio_evidence s now so oo net).remoteSends = s.remoteSends := by
  simp only [save_audio_evidence]
  split_ifs with h1 h2 h3 <;> simp_all <;> omega

/-- The audio flush leaves the debounce timestamp alone. -/
theorem save_audio_last_event (s : EvState) (now : Nat)
    (so oo : Bool) (net : NetResult) :
    (save_audio_evidence s now so oo net).last_event_time = s.last_event_time := by
  simp only [save_audio_evidence]
  split_ifs <;> rfl

/-- The audio flush never clears the in-memory frame buffer. -/
theorem save_audio_frames (s : EvState) (now : Nat)
    (so oo : Bool) (net : NetResult) :
    (save_audio_evidence s now so oo net).frames = s.frames := by
  simp only [save_audio_evidence]
  split_ifs <;> rfl

/-- start_recording leaves the image counter alone. -/
theorem start_recording_sent_images (s : EvState) (now : Nat) :
    (start_recording s now).sent_images = s.sent_images := by
  simp only [start_recording]
  split_ifs <;> rfl

/-- start_recording leaves the audio counter alone. -/
theorem start_recording_sent_audio (s : EvState) (now : Nat) :
    (start_recording s now).sent_audio = s.sent_audio := by
  simp only [start_recording]
  split_ifs <;> rfl

/-- start_recording leaves the debounce timestamp alone. -/
theorem start_recording_last_event (s : EvState) (now : Nat) :
    (start_recording s now).last_event_time = s.last_event_time := by
  simp only [start_recording]
  split_ifs <;> rfl

/-- start_recording leaves the send timestamp alone. -/
theorem start_recording_last_api (s : EvState) (now : Nat) :
    (start_recording s now).last_api_send_time = s.last_api_send_time := by
  simp only [start_recording]
  split_ifs <;> rfl

/-- start_recording leaves the incident log alone. -/
theorem start_recording_incidents (s : EvState) (now : Nat) :
    (start_recording s now).incidents = s.incidents := by
  simp only [start_recording]
  split_ifs <;> rfl

/-- auto_report zeroes the image counter. -/
theorem auto_report_sent_images (s : EvState) (ty d : String) (now : Nat)
    (net : NetResult) : (auto_report s ty d now net).sent_images = 0 := by
  cases h : send_to_api net <;> simp [auto_report, h]

/-- auto_report zeroes the audio counter. -/
theorem auto_report_sent_audio (s : EvState) (ty d : String) (now : Nat)
    (net : NetResult) : (auto_report s ty d now net).sent_audio = 0 := by
  cases h : send_to_api net <;> simp [auto_report, h]

/-- auto_report stamps last_api_send_time with the current time. -/
theorem auto_report_last_api (s : EvState) (ty d : String) (now : Nat)
    (net : NetResult) : (auto_report s ty d now net).last_api_send_time = now := by
  cases h : send_to_api net <;> simp [auto_report, h]

/-- auto_report leaves the debounce timestamp alone. -/
theorem auto_report_last_event (s : EvState) (ty d : String) (now : Nat)
    (net : NetResult) :
    (auto_report s ty d now net).last_event_time = s.last_event_time := by
  cases h : send_to_api net <;> simp [auto_report, upload_evidence_files, h]

/-- auto_report leaves the recording flag alone. -/
theorem auto_report_is_recording (s : EvState) (ty d : String) (now : Nat)
    (net : NetResult) :
    (auto_report s ty d now net).is_recording = s.is_recording := by
  cases h : send_to_api net <;> simp [auto_report, upload_evidence_files, h]

/-- auto_report leaves the frame buffer alone. -/
theorem auto_report_frames (s : EvState) (ty d : String) (now : Nat)
    (net : NetResult) : (auto_report s ty d now net).frames = s.frames := by
  cases h : send_to_api net <;> simp [auto_report, upload_evidence_files, h]

/-- auto_report leaves the episode start time alone. -/
theorem auto_report_recording_start (s : EvState) (ty d : String) (now : Nat)
    (net : NetResult) :
    (auto_report s ty d now net).recording_start_time = s.recording_start_time := by
  cases h : send_to_api net <;> simp [auto_report, upload_evidence_files, h]

/-- auto_report appends exactly one record to the incident log. -/
theorem auto_report_incidents (s : EvState) (ty d : String) (now : Nat)
    (net : NetResult) :
    (auto_report s ty d now net).incidents = s.incidents ++ [⟨ty, d, now⟩] := by
  cases h : send_to_api net <;> simp [auto_report, upload_evidence_files, h]

/-- submit_report keeps the counters inside the caps. -/
theorem submit_caps (s : EvState) (ty d : String) (now : Nat) (net : NetResult)
    (h1 : s.sent_images ≤ MAX_IMAGES) (h2 : s.sent_audio ≤ MAX_AUDIO) :
    (submit_report s ty d now net).1.sent_images ≤ MAX_IMAGES ∧
    (submit_report s ty d now net).1.sent_audio ≤ MAX_AUDIO := by
  simp only [submit_report]
  split_ifs <;> simp_all

/-- The audio callback keeps both upload counters within their caps. -/
theorem audio_callback_caps (s : EvState) (e : CallbackEnv) (buf : List Nat)
    (h1 : s.sent_images ≤ MAX_IMAGES) (h2 : s.sent_audio ≤ MAX_AUDIO) :
    (audio_callback s e buf).sent_images ≤ MAX_IMAGES ∧
    (audio_callback s e buf).sent_audio ≤ MAX_AUDIO := by
  simp only [audio_callback]
  split_ifs <;>
    refine ⟨?_, ?_⟩ <;>
      first
      | exact h1
      | exact h2
      | exact save_audio_sent_audio_le _ _ _ _ _
          (by simp_all [start_recording_sent_audio, auto_report_sent_audio])
      | (simp only [save_audio_sent_images, start_recording_sent_images,
          auto_report_sent_images]; omega)
      | (simp only [start_recording_sent_images, auto_report_sent_images,
          start_recording_sent_audio, auto_report_sent_audio]; omega)

/-- Every single step of the system preserves the upload caps. -/
theorem step_caps {s t : EvState} (h : Step s t)
    (h1 : s.sent_images ≤ MAX_IMAGES) (h2 : s.sent_audio ≤ MAX_AUDIO) :
    t.sent_images ≤ MAX_IMAGES ∧ t.sent_audio ≤ MAX_AUDIO := by
  cases h with
  | motion d => exact ⟨h1, h2⟩
  | audio e buf => exact audio_callback_caps s e buf h1 h2
  | capture hasFrame now saveOk openOk net =>
      exact ⟨capture_sent_images_le s hasFrame now saveOk openOk net h1,
        (capture_sent_audio s hasFrame now saveOk openOk net) ▸ h2⟩
  | flush now saveOk openOk net =>
      exact ⟨(save_audio_sent_images s now saveOk openOk net) ▸ h1,
        save_audio_sent_audio_le s now saveOk openOk net h2⟩
  | startRec now =>
      exact ⟨(start_recording_sent_images s now) ▸ h1,
        (start_recording_sent_audio s now) ▸ h2⟩
  | autoRep ty d now net =>
      refine ⟨?_, ?_⟩
      · rw [auto_report_sent_images]; omega
      · rw [auto_report_sent_audio]; omega
  | submitRep ty d now net => exact submit_caps s ty d now net h1 h2

/-- Every reachable state respects both upload caps. -/
theorem reachable_caps (s : EvState) (h : Reachable s) :
    s.sent_images ≤ MAX_IMAGES ∧ s.sent_audio ≤ MAX_AUDIO := by
  obtain ⟨loaded, hsteps⟩ := h
  induction hsteps with
  | refl => exact ⟨Nat.zero_le _, Nat.zero_le _⟩
  | tail hab hbc ih => exact step_caps hbc ih.1 ih.2

/-- A fully qualifying image capture (open incident, budget left, interval
elapsed, camera, disk and file all fine) persists the file, posts once, bumps
the counter and stamps the send time, whatever the network answered. -/
theorem capture_qualifying (s : EvState) (now : Nat) (net : NetResult)
    (hid : truthyId s.incident_id = true) (hci : s.sent_images < MAX_IMAGES)
    (hint : EVIDENCE_INTERVAL ≤ now - s.last_api_send_time) :
    capture_evidence s true now true true net =
      { s with
          localFiles := s.localFiles ++ [LocalFile.image]
          remoteSends := s.remoteSends ++ [⟨EvKind.image, net⟩]
          sent_images := s.sent_images + 1
          last_api_send_time := now } := by
  simp [capture_evidence, hid, hci, hint]

/-- Whenever the frame exists and the disk write works, exactly one image
file is persisted locally, whether or not the upload part runs. -/
theorem capture_localFiles (s : EvState) (now : Nat) (oo : Bool)
    (net : NetResult) :
    (capture_evidence s true now true oo net).localFiles
      = s.localFiles ++ [LocalFile.image] := by
  simp only [capture_evidence]
  split_ifs <;> simp

/-- Whenever the WAV write works, exactly one audio file holding the joined
buffers is persisted locally, whether or not the upload part runs. -/
theorem save_audio_localFiles (s : EvState) (now : Nat) (oo : Bool)
    (net : NetResult) :
    (save_audio_evidence s now true oo net).localFiles
      = s.localFiles ++ [LocalFile.audioFile s.frames.flatten] := by
  simp only [save_audio_evidence]
  split_ifs <;> simp

/-- The debounce timestamp after an audio callback: stamped with the arrival
time exactly when the loud-and-expired gate fired, untouched otherwise. -/
theorem audio_callback_last_event (s : EvState) (e : CallbackEnv)
    (buf : List Nat) :
    (audio_callback s e buf).last_event_time =
      (if SOUND_THRESHOLD < e.rms ∧
          cooldown_expired
            { s with sound_detected := decide (SOUND_THRESHOLD < e.rms) }
            e.now = true
        then e.now else s.last_event_time) := by
  simp only [audio_callback]
  split_ifs <;> simp [save_audio_last_event, start_recording_last_event]

/-- C1: the claim is false.  From a qualifying state (incident 1 open, zero
counters, send stamp 0), a capture at time 5 whose forward meets a network
error (send_to_api returns none) still increments sent_images from 0 to 1 and
moves last_api_send_time from 0 to 5; the audio path behaves the same. -/
theorem C1_counterexample :
    send_to_api NetResult.connError = none ∧
    openEv.sent_images = 0 ∧ openEv.sent_audio = 0 ∧
    openEv.last_api_send_time = 0 ∧
    (capture_evidence openEv true 5 true true NetResult.connError).sent_images = 1 ∧
    (capture_evidence openEv true 5 true true NetResult.connError).last_api_send_time = 5 ∧
    (save_audio_evidence openEv 5 true true NetResult.connError).sent_audio = 1 ∧
    (save_audio_evidence openEv 5 true true NetResult.connError).last_api_send_time = 5 := by
  decide

/-- C1 (amended): when the remote forward of a qualifying upload attempt
fails (send_to_api returns no response), the per-kind counter is still
incremented and last_api_send_time is still updated, exactly as on success;
the evidence item is persisted locally and exactly one send attempt is made
(no retry). -/
theorem C1_failed_forward_updates_budget :
    (∀ (s : EvState) (now : Nat) (net : NetResult),
      truthyId s.incident_id = true →
      s.sent_images < MAX_IMAGES →
      EVIDENCE_INTERVAL ≤ now - s.last_api_send_time →
      send_to_api net = none →
      (capture_evidence s true now true true net).sent_images = s.sent_images + 1 ∧
      (capture_evidence s true now true true net).last_api_send_time = now ∧
      (capture_evidence s true now true true net).localFiles
        = s.localFiles ++ [LocalFile.image] ∧
      (capture_evidence s true now true true net).remoteSends
        = s.remoteSends ++ [⟨EvKind.image, net⟩]) ∧
    (∀ (s : EvState) (now : Nat) (net : NetResult),
      truthyId s.incident_id = true →
      s.sent_audio < MAX_AUDIO →
      EVIDENCE_INTERVAL ≤ now - s.last_api_send_time →
      send_to_api net = none →
      (save_audio_evidence s now true true net).sent_audio = s.sent_audio + 1 ∧
      (save_audio_evidence s now true true net).last_api_send_time = now ∧
      (save_audio_evidence s now true true net).localFiles
        = s.localFiles ++ [LocalFile.audioFile s.frames.flatten] ∧
      (save_audio_evidence s now true true net).remoteSends
        = s.remoteSends ++ [⟨EvKind.audio, net⟩]) := by
  refine ⟨?_, ?_⟩
  · intro s now net hid hcap hint _
    simp [capture_evidence, hid, hcap, hint]
  · intro s now net hid hcap hint _
    simp [save_audio_evidence, hid, hcap, hint]

/-- C1 (amended) witness at the concrete qualifying state and a failing
network. -/
theorem C1_witness :
    (capture_evidence openEv true 5 true true NetResult.connError).sent_images
        = openEv.sent_images + 1 ∧
    (save_audio_evidence openEv 5 true true NetResult.connError).sent_audio
        = openEv.sent_audio + 1 := by
  exact ⟨(C1_failed_forward_updates_budget.1 openEv 5 NetResult.connError
      (by decide) (by decide) (by decide) rfl).1,
    (C1_failed_forward_updates_budget.2 openEv 5 NetResult.connError
      (by decide) (by decide) (by decide) rfl).1⟩

/-- C2: in every reachable state both counters respect their caps; once a
per-kind cap is reached the corresponding operation posts nothing further;
and six qualifying captures for one incident yield exactly three posts (all
of kind IMAGE, all answered 201) while six files are persisted locally. -/
theorem C2_upload_caps :
    (∀ s : EvState, Reachable s →
      s.sent_images ≤ MAX_IMAGES ∧ s.sent_audio ≤ MAX_AUDIO) ∧
    (∀ (s : EvState) (hasFrame : Bool) (now : Nat) (saveOk openOk : Bool)
      (net : NetResult), MAX_IMAGES ≤ s.sent_images →
      (capture_evidence s hasFrame now saveOk openOk net).remoteSends
        = s.remoteSends) ∧
    (∀ (s : EvState) (now : Nat) (saveOk openOk : Bool) (net : NetResult),
      MAX_AUDIO ≤ s.sent_audio →
      (save_audio_evidence s now saveOk openOk net).remoteSends
        = s.remoteSends) ∧
    (sixCaptures.sent_images = 3 ∧
      sixCaptures.remoteSends =
        [⟨EvKind.image, NetResult.response 201 none⟩,
         ⟨EvKind.image, NetResult.response 201 none⟩,
         ⟨EvKind.image, NetResult.response 201 none⟩] ∧
      sixCaptures.localFiles.length = 6) := by
  exact ⟨reachable_caps, capture_capped, save_audio_capped, by decide⟩

/-- C2 witness: the caps hold at the freshly constructed state, and a capped
state posts nothing on either path. -/
theorem C2_witness :
    ((initState []).sent_images ≤ MAX_IMAGES ∧
      (initState []).sent_audio ≤ MAX_AUDIO) ∧
    (capture_evidence cappedEv true 9 true true NetResult.connError).remoteSends
        = cappedEv.remoteSends ∧
    (save_audio_evidence cappedEv 9 true true NetResult.connError).remoteSends
        = cappedEv.remoteSends := by
  refine ⟨C2_upload_caps.1 (initState []) ⟨[], Relation.ReflTransGen.refl⟩, ?_, ?_⟩
  · exact C2_upload_caps.2.1 cappedEv true 9 true true NetResult.connError (by decide)
  · exact C2_upload_caps.2.2.1 cappedEv 9 true true NetResult.connError (by decide)

/-- C6: start_recording is idempotent while an episode is active (the exact
state, frame buffer and start time included, is returned unchanged) and acts
only from the idle state, where it starts an episode with a cleared buffer. -/
theorem C6_start_recording_idempotent :
    ∀ (s : EvState) (now : Nat),
      (s.is_recording = true → start_recording s now = s) ∧
      (s.is_recording = false →
        (start_recording s now).is_recording = true ∧
        (start_recording s now).recording_start_time = now ∧
        (start_recording s now).frames = []) := by
  intro s now
  refine ⟨fun h => ?_, fun h => ?_⟩
  · simp [start_recording, h]
  · simp [start_recording, h]

/-- C6 witness: idempotence at a concrete mid-episode state and activation at
the concrete idle state. -/
theorem C6_witness :
    start_recording recState 4 = recState ∧
    (start_recording (initState []) 4).is_recording = true := by
  exact ⟨(C6_start_recording_idempotent recState 4).1 rfl,
    ((C6_start_recording_idempotent (initState []) 4).2 rfl).1⟩

/-- C8: the claim is false.  A response with the 2xx status 200 is treated by
send_to_api as a failure (it returns no body). -/
theorem C8_counterexample :
    is2xx 200 = true ∧ send_to_api (NetResult.response 200 (some 1)) = none := by
  decide

/-- C8 (amended): send_to_api treats a call as successful exactly when the
status code is 201 (a connection error is always a failure), while the status
test inside upload_evidence_files accepts exactly 200 and 201. -/
theorem C8_success_criterion :
    (∀ (status : Nat) (bodyId : Option Nat),
      (send_to_api (NetResult.response status bodyId)).isSome = true ↔
        status = 201) ∧
    send_to_api NetResult.connError = none ∧
    (∀ status : Nat,
      uploadStatusOk status = true ↔ (status = 200 ∨ status = 201)) := by
  refine ⟨?_, rfl, ?_⟩
  · intro status bodyId
    simp only [send_to_api]
    split_ifs with h <;> simp [h]
  · intro status
    simp [uploadStatusOk]

/-- C9: the claim is false.  There is no state, above-threshold diff score
and time with expired cooldown at which an iteration of the motion loop
mutates the cooldown state or opens an incident; the iteration only writes
the motion flag. -/
theorem C9_counterexample :
    ¬ ∃ (s : EvState) (diffSum now : Nat),
        MOTION_THRESHOLD < diffSum ∧ cooldown_expired s now = true ∧
        ((motion_iteration s diffSum).last_event_time ≠ s.last_event_time ∨
          (motion_iteration s diffSum).incidents ≠ s.incidents ∨
          (motion_iteration s diffSum).incident_id ≠ s.incident_id) := by
  rintro ⟨s, diffSum, now, -, -, h | h | h⟩ <;> exact h rfl

/-- C9 (amended): only the audio callback feeds the debounce gate and the
incident reporter; the motion loop merely evaluates its threshold into the
motion flag.  Concretely, a loud buffer at time 11 with expired cooldown
fires an auto-trigger (stamps the cooldown state and appends an incident),
while a motion iteration changes nothing but the flag. -/
theorem C9_signal_flow :
    (∀ (s : EvState) (diffSum : Nat),
      (motion_iteration s diffSum).motion_detected
          = decide (MOTION_THRESHOLD < diffSum) ∧
      (motion_iteration s diffSum).last_event_time = s.last_event_time ∧
      (motion_iteration s diffSum).incidents = s.incidents) ∧
    ((audio_callback (initState []) loudEnv11 [7]).last_event_time = 11 ∧
      (audio_callback (initState []) loudEnv11 [7]).incidents.length = 1) := by
  exact ⟨fun s d => ⟨rfl, rfl, rfl⟩, by decide⟩

/-- C3: the cooldown gate returns true exactly when the elapsed time since
the last event strictly exceeds EVENT_COOLDOWN.  After a trigger stamped the
state at time 0: a candidate at time 5 is rejected and the whole state is
left untouched except the sound flag; the gate opens at time 11, and a loud
candidate at time 11 fires and stamps last_event_time = 11. -/
theorem C3_cooldown_gate :
    (∀ (s : EvState) (now : Nat),
      cooldown_expired s now = true ↔ EVENT_COOLDOWN < now - s.last_event_time) ∧
    (∀ (s : EvState) (rms : ℚ) (inet : NetResult) (aso aoo : Bool)
      (anet : NetResult) (buf : List Nat),
      s.last_event_time = 0 → s.is_recording = false →
      cooldown_expired s 5 = false ∧
      audio_callback s ⟨5, rms, inet, aso, aoo, anet⟩ buf
        = { s with sound_detected := decide (SOUND_THRESHOLD < rms) }) ∧
    (∀ s : EvState, s.last_event_time = 0 → cooldown_expired s 11 = true) ∧
    (∀ (s : EvState) (rms : ℚ) (inet : NetResult) (aso aoo : Bool)
      (anet : NetResult) (buf : List Nat),
      s.last_event_time = 0 → SOUND_THRESHOLD < rms →
      (audio_callback s ⟨11, rms, inet, aso, aoo, anet⟩ buf).last_event_time = 11) := by
  refine ⟨?_, ?_, ?_, ?_⟩
  · intro s now
    simp [cooldown_expired]
  · intro s rms inet aso aoo anet buf h0 hrec
    refine ⟨by simp [cooldown_expired, EVENT_COOLDOWN, h0], ?_⟩
    simp [audio_callback, cooldown_expired, EVENT_COOLDOWN, h0, hrec]
  · intro s h0
    simp [cooldown_expired, EVENT_COOLDOWN, h0]
  · intro s rms inet aso aoo anet buf h0 hrms
    rw [audio_callback_last_event]
    rw [if_pos ⟨hrms, by simp [cooldown_expired, EVENT_COOLDOWN, h0]⟩]

/-- C3 witness at the freshly constructed state, whose last event time is 0
as after a trigger at time 0, with a loud buffer (rms 1). -/
theorem C3_witness :
    (cooldown_expired (initState []) 5 = false ∧
      audio_callback (initState [])
          ⟨5, 1, NetResult.connError, true, true, NetResult.connError⟩ [7]
        = { initState [] with
              sound_detected := decide (SOUND_THRESHOLD < (1 : ℚ)) }) ∧
    cooldown_expired (initState []) 11 = true ∧
    (audio_callback (initState [])
        ⟨11, 1, NetResult.connError, true, true, NetResult.connError⟩
        [7]).last_event_time = 11 := by
  refine ⟨C3_cooldown_gate.2.1 (initState []) 1 NetResult.connError true true
      NetResult.connError [7] rfl rfl,
    C3_cooldown_gate.2.2.1 (initState []) rfl,
    C3_cooldown_gate.2.2.2 (initState []) 1 NetResult.connError true true
      NetResult.connError [7] rfl (by decide)⟩

/-- C4: the claim is false.  A recording episode started at time 0 with one
buffered chunk, expiring on a quiet callback at time 10, does transition to
idle and flushes one file holding both chunks, but the in-memory frame
buffer still holds those chunks afterwards instead of being cleared. -/
theorem C4_counterexample :
    recState.frames = [[1]] ∧
    (audio_callback recState quietEnv10 [2]).is_recording = false ∧
    (audio_callback recState quietEnv10 [2]).localFiles
        = [LocalFile.audioFile [1, 2]] ∧
    (audio_callback recState quietEnv10 [2]).frames = [[1], [2]] := by
  decide

/-- C4 (amended): when the duration expires during a quiet callback with a
working WAV write, the machine leaves the recording state and flushes all
buffers appended during the episode, the arriving one included, to exactly
one local evidence file; the in-memory buffer is NOT cleared on this
transition, only at the start of the next episode. -/
theorem C4_flush_on_expiry :
    ∀ (s : EvState) (rms : ℚ) (inet : NetResult) (oo : Bool) (anet : NetResult)
      (buf : List Nat) (now : Nat),
      s.is_recording = true → rms ≤ SOUND_THRESHOLD →
      RECORDING_DURATION ≤ now - s.recording_start_time →
      (audio_callback s ⟨now, rms, inet, true, oo, anet⟩ buf).is_recording
          = false ∧
      (audio_callback s ⟨now, rms, inet, true, oo, anet⟩ buf).localFiles
          = s.localFiles ++ [LocalFile.audioFile (s.frames ++ [buf]).flatten] ∧
      (audio_callback s ⟨now, rms, inet, true, oo, anet⟩ buf).frames
          = s.frames ++ [buf] ∧
      (∀ t : Nat,
        (start_recording
          (audio_callback s ⟨now, rms, inet, true, oo, anet⟩ buf) t).frames
            = []) := by
  intro s rms inet oo anet buf now hrec hquiet hdur
  have hng : ¬ (SOUND_THRESHOLD < rms) := not_lt.2 hquiet
  simp only [audio_callback]
  split_ifs with h1 h2 h3 <;>
    first
    | exact absurd h1.1 hng
    | exact absurd hdur h3
    | exact absurd hrec h2
    | exact ⟨rfl, by simp [save_audio_localFiles], by simp [save_audio_frames],
        fun t => by simp [start_recording]⟩

/-- C4 (amended) witness at the concrete expiring episode. -/
theorem C4_witness :
    (audio_callback recState
        ⟨10, 0, NetResult.connError, true, true, NetResult.connError⟩
        [2]).is_recording = false ∧
    (audio_callback recState
        ⟨10, 0, NetResult.connError, true, true, NetResult.connError⟩
        [2]).frames = recState.frames ++ [[2]] ∧
    (start_recording
        (audio_callback recState
          ⟨10, 0, NetResult.connError, true, true, NetResult.connError⟩ [2])
        20).frames = [] := by
  have h := C4_flush_on_expiry recState 0 NetResult.connError true
    NetResult.connError [2] 10 rfl (by decide) (by decide)
  exact ⟨h.1, h.2.2.1, h.2.2.2 20⟩

/-- C5: of two qualifying upload attempts less than EVIDENCE_INTERVAL apart,
only the first posts to the remote collaborator; the second (image or audio)
posts nothing, yet both evidence items are persisted locally. -/
theorem C5_interval_suppression :
    ∀ (s : EvState) (t1 t2 : Nat) (netA netB : NetResult),
      truthyId s.incident_id = true →
      s.sent_images < MAX_IMAGES →
      EVIDENCE_INTERVAL ≤ t1 - s.last_api_send_time →
      t2 - t1 < EVIDENCE_INTERVAL →
      ((capture_evidence s true t1 true true netA).remoteSends.length
          = s.remoteSends.length + 1) ∧
      ((capture_evidence (capture_evidence s true t1 true true netA)
            true t2 true true netB).remoteSends
          = (capture_evidence s true t1 true true netA).remoteSends) ∧
      ((capture_evidence (capture_evidence s true t1 true true netA)
            true t2 true true netB).localFiles.length
          = s.localFiles.length + 2) ∧
      ((save_audio_evidence (capture_evidence s true t1 true true netA)
            t2 true true netB).remoteSends
          = (capture_evidence s true t1 true true netA).remoteSends) := by
  intro s t1 t2 netA netB hid hci hint hlt
  rw [capture_qualifying s t1 netA hid hci hint]
  refine ⟨by simp, ?_, ?_, ?_⟩
  · exact capture_in_interval _ true t2 true true netB hlt
  · rw [capture_localFiles]
    simp
  · exact save_audio_in_interval _ t2 true true netB hlt

/-- C5 witness: captures at times 5 and 7 from the open-incident state. -/
theorem C5_witness :
    ((capture_evidence openEv true 5 true true
        (NetResult.response 201 none)).remoteSends.length
      = openEv.remoteSends.length + 1) ∧
    ((capture_evidence
        (capture_evidence openEv true 5 true true (NetResult.response 201 none))
        true 7 true true (NetResult.response 201 none)).remoteSends
      = (capture_evidence openEv true 5 true true
          (NetResult.response 201 none)).remoteSends) := by
  have h := C5_interval_suppression openEv 5 7 (NetResult.response 201 none)
    (NetResult.response 201 none) (by decide) (by decide) (by decide) (by decide)
  exact ⟨h.1, h.2.1⟩

/-- C7: with non-empty fields and a failing remote incident post,
submit_report still appends the local incident record, still shows the
success message box, and clears the active incident id, after which neither
evidence path posts anything for this incident. -/
theorem C7_submit_remote_failure :
    ∀ (s : EvState) (ty rawDesc : String) (now : Nat) (net : NetResult),
      ty ≠ "" → pyStrip rawDesc ≠ "" → send_to_api net = none →
      (submit_report s ty rawDesc now net).2 = true ∧
      (submit_report s ty rawDesc now net).1.incidents
          = s.incidents ++ [⟨ty, pyStrip rawDesc, now⟩] ∧
      (submit_report s ty rawDesc now net).1.incident_id = none ∧
      (∀ (hasFrame : Bool) (t : Nat) (so oo : Bool) (net2 : NetResult),
        (capture_evidence (submit_report s ty rawDesc now net).1
            hasFrame t so oo net2).remoteSends
          = (submit_report s ty rawDesc now net).1.remoteSends) ∧
      (∀ (t : Nat) (so oo : Bool) (net2 : NetResult),
        (save_audio_evidence (submit_report s ty rawDesc now net).1
            t so oo net2).remoteSends
          = (submit_report s ty rawDesc now net).1.remoteSends) := by
  intro s ty rawDesc now net hty hdesc hfail
  have hcond : (ty == "" || pyStrip rawDesc == "") = false := by
    simp [hty, hdesc]
  refine ⟨?_, ?_, ?_, ?_, ?_⟩
  · simp [submit_report, hcond, hfail]
  · simp [submit_report, hcond, hfail]
  · simp [submit_report, hcond, hfail]
  · intro hasFrame t so oo net2
    apply capture_no_incident
    simp [submit_report, hcond, hfail]
  · intro t so oo net2
    apply save_audio_no_incident
    simp [submit_report, hcond, hfail]

/-- C7 witness: a concrete manual report against a dead network. -/
theorem C7_witness :
    (submit_report (initState []) ("Theft") ("bike taken") 3
        NetResult.connError).2 = true ∧
    (submit_report (initState []) ("Theft") ("bike taken") 3
        NetResult.connError).1.incident_id = none ∧
    (capture_evidence
        (submit_report (initState []) ("Theft") ("bike taken") 3
          NetResult.connError).1
        true 99 true true (NetResult.response 201 none)).remoteSends
      = (submit_report (initState []) ("Theft") ("bike taken") 3
          NetResult.connError).1.remoteSends := by
  have h := C7_submit_remote_failure (initState []) ("Theft") ("bike taken") 3
    NetResult.connError (by decide) (by decide) rfl
  exact ⟨h.1, h.2.2.1, h.2.2.2.1 true 99 true true (NetResult.response 201 none)⟩

/-- C10: both report paths reset the per-kind counters and stamp
last_api_send_time with the completion time, whatever the network outcome;
consequently, in any state whose send stamp was just set, neither evidence
path posts anything strictly within the next EVIDENCE_INTERVAL seconds. -/
theorem C10_budget_reset :
    (∀ (s : EvState) (ty d : String) (now : Nat) (net : NetResult),
      (auto_report s ty d now net).last_api_send_time = now ∧
      (auto_report s ty d now net).sent_images = 0 ∧
      (auto_report s ty d now net).sent_audio = 0) ∧
    (∀ (s : EvState) (ty d : String) (now : Nat) (net : NetResult),
      ty ≠ "" → pyStrip d ≠ "" →
      ((submit_report s ty d now net).1.last_api_send_time = now ∧
        (submit_report s ty d now net).1.sent_images = 0 ∧
        (submit_report s ty d now net).1.sent_audio = 0)) ∧
    (∀ (s : EvState) (hasFrame : Bool) (t : Nat) (so oo : Bool)
      (net : NetResult),
      t < s.last_api_send_time + EVIDENCE_INTERVAL →
      (capture_evidence s hasFrame t so oo net).remoteSends = s.remoteSends ∧
      (save_audio_evidence s t so oo net).remoteSends = s.remoteSends) := by
  refine ⟨?_, ?_, ?_⟩
  · intro s ty d now net
    exact ⟨auto_report_last_api s ty d now net,
      auto_report_sent_images s ty d now net,
      auto_report_sent_audio s ty d now net⟩
  · intro s ty d now net hty hdesc
    have hcond : (ty == "" || pyStrip d == "") = false := by
      simp [hty, hdesc]
    refine ⟨?_, ?_, ?_⟩ <;> simp [submit_report, hcond]
  · intro s hasFrame t so oo net h
    have h5 : EVIDENCE_INTERVAL = 5 := rfl
    exact ⟨capture_in_interval s hasFrame t so oo net (by omega),
      save_audio_in_interval s t so oo net (by omega)⟩

/-- C10 witness: concrete resets and a suppressed capture 3 seconds after
the incident opened. -/
theorem C10_witness :
    (auto_report (initState []) ("Loud Noise") ("noise") 4
        NetResult.connError).last_api_send_time = 4 ∧
    (submit_report (initState []) ("Theft") ("bag taken") 4
        NetResult.connError).1.sent_images = 0 ∧
    (capture_evidence openIncidentState true 3 true true
        NetResult.connError).remoteSends = openIncidentState.remoteSends := by
  refine ⟨(C10_budget_reset.1 (initState []) ("Loud Noise") ("noise") 4
      NetResult.connError).1,
    (C10_budget_reset.2.1 (initState []) ("Theft") ("bag taken") 4
      NetResult.connError (by decide) (by decide)).2.1,
    (C10_budget_reset.2.2 openIncidentState true 3 true true
      NetResult.connError (by decide)).1⟩

end SmartSecurity
